import Mathlib

/-!
Verification development for the SFQueryEditorHelper content script
(`content.js`).  The definitions below are a shallow embedding of the
response-classification, accumulation and pagination-reconstruction logic
of that file; theorems about them settle the specification claims.

Conventions of the embedding:
* JavaScript values that may be `null`/`undefined` become `Option`.
* The `Infinity` marker used for an unknown `totalRows` becomes `none`
  (comparisons against it are therefore always false, matching
  `returnedRows >= Infinity`).
* JavaScript numbers that hold row counts become `Int`.
* The regular-expression URL tests of the source are implemented as
  executable character-list scanners with the same acceptance behaviour.
-/

namespace SFQH

/-- JS `a ?? b` / `a || b` on optional values: keep the first present one. -/
def ofirst {α : Type} (a b : Option α) : Option α :=
  match a with
  | some x => some x
  | none => b

/-- Character class `[A-Za-z0-9_-]` used by the queryId URL patterns. -/
def isIdChar (c : Char) : Bool :=
  c.isAlpha || c.isDigit || c = '_' || c = '-'

/-- Character class `[A-Za-z0-9]` used by the continuation-locator pattern. -/
def isAlnumChar (c : Char) : Bool :=
  c.isAlpha || c.isDigit

/-- Does `l` start with the pattern `p` (exact characters)? -/
def startsWithSeq : List Char → List Char → Bool
  | [], _ => true
  | _ :: _, [] => false
  | p :: ps, c :: cs => p = c && startsWithSeq ps cs

/-- Does `l` contain `p` as a contiguous subsequence? -/
def containsSeq (p : List Char) : List Char → Bool
  | [] => startsWithSeq p []
  | c :: cs => startsWithSeq p (c :: cs) || containsSeq p cs

/-- Strip the pattern `p` (given lowercase) from the front of `l`,
comparing case-insensitively; return the rest on success.
Mirrors matching a literal under a `/i` regex flag. -/
def stripCI : List Char → List Char → Option (List Char)
  | [], l => some l
  | _ :: _, [] => none
  | p :: ps, c :: cs => if c.toLower = p then stripCI ps cs else none

/-- Match `/\/query\/([A-Za-z0-9_-]{10,})(?:\/|$|\?)/i` at the head of `l`,
returning the captured id.  The capture is the maximal id-character run
after the literal (characters inside the run cannot serve as the
`/`, `?` or end terminator), of length at least 10. -/
def queryIdPat1At (l : List Char) : Option (List Char) :=
  match stripCI "/query/".toList l with
  | none => none
  | some rest =>
      let run := rest.takeWhile isIdChar
      let after := rest.drop run.length
      if 10 ≤ run.length ∧ (after = [] ∨ after.head? = some '/' ∨ after.head? = some '?') then
        some run
      else none

/-- Leftmost match of the first queryId pattern anywhere in the list. -/
def queryIdScan1 : List Char → Option (List Char)
  | [] => none
  | c :: cs =>
      match queryIdPat1At (c :: cs) with
      | some r => some r
      | none => queryIdScan1 cs

/-- Match `/[?&]queryId=([A-Za-z0-9_-]+)/i` at the head of `l`. -/
def queryIdPat2At (l : List Char) : Option (List Char) :=
  match l with
  | [] => none
  | c :: cs =>
      if c = '?' ∨ c = '&' then
        match stripCI "queryid=".toList cs with
        | none => none
        | some rest =>
            let run := rest.takeWhile isIdChar
            if run = [] then none else some run
      else none

/-- Leftmost match of the second queryId pattern anywhere in the list. -/
def queryIdScan2 : List Char → Option (List Char)
  | [] => none
  | c :: cs =>
      match queryIdPat2At (c :: cs) with
      | some r => some r
      | none => queryIdScan2 cs

/-- `extractQueryIdFromUrl` from `content.js`: try the
`/query/<id>` pattern first, then the `queryId=<id>` query parameter. -/
def extractQueryIdFromUrl (url : String) : Option String :=
  match queryIdScan1 url.toList with
  | some r => some (String.mk r)
  | none =>
      match queryIdScan2 url.toList with
      | some r => some (String.mk r)
      | none => none

/-- `/[?&]columns=true/` — the metadata-preflight marker (case-sensitive). -/
def columnsTrueTest (url : String) : Bool :=
  containsSeq "?columns=true".toList url.toList ||
  containsSeq "&columns=true".toList url.toList

/-- `/\/tooling\/query[/?]/` — the background Tooling API endpoint marker. -/
def toolingQueryTest (url : String) : Bool :=
  containsSeq "/tooling/query/".toList url.toList ||
  containsSeq "/tooling/query?".toList url.toList

/-- Match `/\/query\/[A-Za-z0-9]+-\d+/` at the head of `l`: the literal,
then a nonempty alphanumeric run, a dash, and a digit.  As with the first
queryId pattern, only the maximal alphanumeric run can be followed by the
dash. -/
def contLocatorAt (l : List Char) : Bool :=
  if startsWithSeq "/query/".toList l then
    let rest := l.drop 7
    let run := rest.takeWhile isAlnumChar
    let after := rest.drop run.length
    match after with
    | '-' :: d :: _ => run ≠ [] && d.isDigit
    | _ => false
  else false

/-- Continuation-locator scan over every position of the list. -/
def contLocatorScan : List Char → Bool
  | [] => false
  | c :: cs => contLocatorAt (c :: cs) || contLocatorScan cs

/-- The guard of `processSoqlResponse` against re-classifying
`nextRecordsUrl` continuation fetches. -/
def contLocatorTest (url : String) : Bool :=
  contLocatorScan url.toList

/-- The Aura replay context captured by `extractAuraInfo`.  The parsing of
the form-encoded body is not needed by the claims; only the shape and the
presence checks of its fields are. -/
structure AuraInfo where
  sql : String
  descriptor : Option String
  dataspace : String
  auraContext : Option String
  auraToken : Option String
  auraUrl : Option String
deriving DecidableEq, Repr

/-- The inner `returnValue` of an Aura envelope that passed
`isDCQueryResponse` (so `dataRows` is an array).  `ρ` is the row type,
`μ` the opaque column-metadata type.  `returnedRows` is the page's
declared count when it is a number; `statusQueryId` and `statusRowCount`
are the optional `status.queryId` / `status.rowCount` fields. -/
structure DCPayload (ρ μ : Type) where
  dataRows : List ρ
  metadata : Option μ
  returnedRows : Option Int
  statusQueryId : Option String
  statusRowCount : Option Int
deriving DecidableEq, Repr

/-- `thisPageRows`: the declared page count when present, otherwise the
actual number of rows on the page. -/
def thisPageRows {ρ μ : Type} (p : DCPayload ρ μ) : Int :=
  match p.returnedRows with
  | some n => n
  | none => (p.dataRows.length : Int)

/-- One accumulator entry of the `store` map.  `totalRows = none` is the
`Infinity` marker; `pending` records whether a flush timer is armed
(`_flushTimer` non-null and not cleared). -/
structure Acc (ρ μ : Type) where
  queryId : Option String
  dataRows : List ρ
  metadata : Option μ
  returnedRows : Int
  totalRows : Option Int
  pending : Bool
  auraInfo : Option AuraInfo
deriving DecidableEq, Repr

/-- `acc.returnedRows >= acc.totalRows` with `Infinity` represented by
`none` (the comparison against `Infinity` is always false). -/
def completeB {ρ μ : Type} (a : Acc ρ μ) : Bool :=
  match a.totalRows with
  | none => false
  | some t => t ≤ a.returnedRows

/-- The fresh accumulator created for an unseen queryId
(`store.set(queryId, {...})` in `processResponse`). -/
def initAcc {ρ μ : Type} (q : String) (p : DCPayload ρ μ) (aura : Option AuraInfo) :
    Acc ρ μ :=
  { queryId := some q
    dataRows := []
    metadata := p.metadata
    returnedRows := 0
    totalRows := p.statusRowCount
    pending := false
    auraInfo := aura }

/-- The merge performed on the stored accumulator by `processResponse`:
append the page rows, add the declared count, adopt a present declared
total, keep the first metadata and the first aura context. -/
def mergePage {ρ μ : Type} (acc : Acc ρ μ) (p : DCPayload ρ μ)
    (aura : Option AuraInfo) : Acc ρ μ :=
  { acc with
    dataRows := acc.dataRows ++ p.dataRows
    returnedRows := acc.returnedRows + thisPageRows p
    totalRows := ofirst p.statusRowCount acc.totalRows
    metadata := ofirst acc.metadata p.metadata
    auraInfo := ofirst acc.auraInfo aura }

/-- The `store` map from queryIds to live accumulators. -/
def Store (ρ μ : Type) := String → Option (Acc ρ μ)

/-- The empty store. -/
def emptyStore (ρ μ : Type) : Store ρ μ := fun _ => none

/-- `store.set q a`. -/
def setStore {ρ μ : Type} (s : Store ρ μ) (q : String) (a : Acc ρ μ) : Store ρ μ :=
  fun x => if x = q then some a else s x

/-- `store.delete q`. -/
def delStore {ρ μ : Type} (s : Store ρ μ) (q : String) : Store ρ μ :=
  fun x => if x = q then none else s x

/-- The snapshot handed to `showToast`: the accumulator fields plus the
`isLimited` / `canFetchAll` flags computed there
(`returnedRows < totalRows && totalRows !== Infinity`). -/
structure Toast (ρ μ : Type) where
  queryId : Option String
  dataRows : List ρ
  metadata : Option μ
  returnedRows : Int
  totalRows : Option Int
  isLimited : Bool
  canFetchAll : Bool
deriving DecidableEq, Repr

/-- Build the toast snapshot from an accumulator. -/
def toastOf {ρ μ : Type} (a : Acc ρ μ) : Toast ρ μ :=
  let lim : Bool :=
    match a.totalRows with
    | none => false
    | some t => a.returnedRows < t
  { queryId := a.queryId
    dataRows := a.dataRows
    metadata := a.metadata
    returnedRows := a.returnedRows
    totalRows := a.totalRows
    isLimited := lim
    canFetchAll := lim && a.auraInfo.isSome }

/-- The accumulator that results from dispatching one page carrying
queryId `q` at the current store: merge into the stored entry, or into a
fresh one when `q` is unseen. -/
def stepAccOf {ρ μ : Type} (s : Store ρ μ) (q : String) (p : DCPayload ρ μ)
    (aura : Option AuraInfo) : Acc ρ μ :=
  mergePage (match s q with
              | some a => a
              | none => initAcc q p aura) p aura

/-- `processResponse` from `content.js`.  `data = none` models a body that
fails `isDCQueryResponse`.  Returns the new store and the list of toasts
emitted synchronously by this call.  Timer state is carried in
`Acc.pending`; `timerFire` below models the armed timeout firing. -/
def processResponse {ρ μ : Type} (s : Store ρ μ) (data : Option (DCPayload ρ μ))
    (url : String) (aura : Option AuraInfo) : Store ρ μ × List (Toast ρ μ) :=
  match data with
  | none => (s, [])
  | some payload =>
      match ofirst payload.statusQueryId (extractQueryIdFromUrl url) with
      | some q =>
          let acc1 := stepAccOf s q payload aura
          if completeB acc1 then
            (delStore s q, [toastOf acc1])
          else if 0 < acc1.returnedRows then
            (setStore s q { acc1 with pending := true }, [])
          else
            (setStore s q acc1, [])
      | none =>
          match payload.metadata with
          | none => (s, [])
          | some _ =>
              (s, [toastOf
                    { queryId := none
                      dataRows := payload.dataRows
                      metadata := payload.metadata
                      returnedRows := thisPageRows payload
                      totalRows := some (thisPageRows payload)
                      pending := false
                      auraInfo := none }])

/-- The armed 1.5-second flush timeout firing for `q`: the callback
rechecks membership and flushes the accumulator.  A timer can only fire
while it is armed (`pending`); `clearTimeout` and completion both prevent
that. -/
def timerFire {ρ μ : Type} (s : Store ρ μ) (q : String) :
    Store ρ μ × List (Toast ρ μ) :=
  match s q with
  | none => (s, [])
  | some acc => if acc.pending then (delStore s q, [toastOf acc]) else (s, [])

/-- Accumulating a nonempty in-order page sequence for one queryId:
the first page creates the accumulator and is merged into it, the rest
are merged in turn (the store dispatch of `processResponse`, viewed from
one queryId). -/
def accumulatePages {ρ μ : Type} (q : String) (first : DCPayload ρ μ)
    (rest : List (DCPayload ρ μ)) : Acc ρ μ :=
  List.foldl (fun a pg => mergePage a pg none)
    (mergePage (initAcc q first none) first none) rest

/-- The first present value in a list of optional values. -/
def firstSome {μ : Type} (l : List (Option μ)) : Option μ :=
  (l.filterMap id).head?

/-- A body that passed `isSoqlQueryResponse`: a `records` array, a numeric
`totalSize` and a boolean `done`, with an optional continuation locator. -/
structure SoqlData (ρ : Type) where
  records : List ρ
  totalSize : Int
  done : Bool
  nextRecordsUrl : Option String
deriving DecidableEq, Repr

/-- `processSoqlResponse` from `content.js`.  `armed` is the module-level
`_toolingQueryArmed` flag; `data = none` models a body failing
`isSoqlQueryResponse`.  Returns the new flag value and the toast payload,
if one is shown. -/
def processSoqlResponse {ρ : Type} (armed : Bool) (data : Option (SoqlData ρ))
    (url : String) : Bool × Option (SoqlData ρ) :=
  match data with
  | none => (armed, none)
  | some d =>
      if d.records.length = 0 then (armed, none)
      else if columnsTrueTest url then (armed, none)
      else if contLocatorTest url then (armed, none)
      else if toolingQueryTest url then
        if armed then (false, some d) else (armed, none)
      else (armed, some d)

/-- The arming step performed by the patched `fetch` / `XMLHttpRequest.send`
when an outgoing request fires: a `columns=true` request to the tooling
endpoint arms the gate. -/
def armOnSend (armed : Bool) (url : String) : Bool :=
  if toolingQueryTest url && columnsTrueTest url then true else armed

/-- Decimal digit characters of `n`, most significant first — the text a
JavaScript template literal interpolates for a number. -/
def decChars (n : Nat) : List Char :=
  if n = 0 then ['0'] else ((Nat.digits 10 n).reverse.map Nat.digitChar)

/-- Decimal rendering of a natural number. -/
def natDec (n : Nat) : String :=
  String.mk (decChars n)

/-- Numeric value of a decimal digit character. -/
def decDigitVal (c : Char) : Nat := c.toNat - 48

/-- Parse a nonempty all-digit character list as a decimal number. -/
def decToNat? (l : List Char) : Option Nat :=
  if l ≠ [] ∧ l.all (·.isDigit) then
    some (l.foldl (fun a c => 10 * a + decDigitVal c) 0)
  else none

/-- The batch size used by the DC pagination reconstructor. -/
def BATCH : Nat := 49999

/-- The possible outcomes of one page fetch made by `fetchAllRows`,
indexed by the `OFFSET` value of the request it answers: transport
failure, non-success status, JSON parse failure, an Aura-level error
(missing action or `state === ERROR`, with its optional message), a body
without an array `dataRows`, or a good page. -/
inductive DCFetch (ρ μ : Type) where
  | netErr (msg : String)
  | httpErr (status : Nat)
  | parseErr
  | auraErr (msg : Option String)
  | badShape
  | page (rows : List ρ) (meta : Option μ) (rowCount : Option Int)
deriving DecidableEq, Repr

/-- Result of a reconstructor run: the `onDone` payload with the number of
page fetches performed, the `onError` message with the number of fetches,
or exhaustion of the step bound (the real loop has none). -/
inductive DCRun (ρ μ : Type) where
  | done (rows : List ρ) (meta : Option μ) (fetches : Nat)
  | fail (msg : String) (fetches : Nat)
  | fuelOut
deriving DecidableEq, Repr

/-- The `while (true)` page loop of `fetchAllRows`.  State: the fetch
counter `pageNum`, the `OFFSET` for the next request, the rows merged so
far, the metadata adopted so far, and the best-known total (`none` when
unknown).  `accMeta` is `acc.metadata`, used by the final
`allMetadata ?? acc.metadata`. -/
def dcLoop {ρ μ : Type} (transport : Nat → DCFetch ρ μ) (accMeta : Option μ) :
    Nat → Nat → Nat → List ρ → Option μ → Option Int → DCRun ρ μ
  | 0, _, _, _, _, _ => .fuelOut
  | fuel + 1, pageNum, offset, allRows, allMeta, total =>
      match transport offset with
      | .netErr m => .fail ("Network error: " ++ m) (pageNum + 1)
      | .httpErr s => .fail ("Server error " ++ natDec s) (pageNum + 1)
      | .parseErr => .fail "Failed to parse response as JSON" (pageNum + 1)
      | .auraErr m => .fail ((m.getD "Aura request failed").take 200) (pageNum + 1)
      | .badShape => .fail "Unexpected response structure" (pageNum + 1)
      | .page rows meta rowCount =>
          let allMeta2 := ofirst allMeta meta
          let total2 := ofirst rowCount total
          let allRows2 := allRows ++ rows
          let offset2 := offset + rows.length
          if decide (rows.length < BATCH) ||
              (match total2 with
               | some t => decide ((allRows2.length : Int) ≥ t)
               | none => false) ||
              decide (rows.length = 0) then
            .done allRows2 (ofirst allMeta2 accMeta) (pageNum + 1)
          else
            dcLoop transport accMeta fuel (pageNum + 1) offset2 allRows2 allMeta2 total2

/-- `fetchAllRows`: guard for a usable replay context, then run the page
loop from offset 0 with `allMetadata = acc.metadata` and
`totalRows = acc.totalRows === Infinity ? null : acc.totalRows`
(the `Option Int` representation makes that the identity). -/
def fetchAllRows {ρ μ : Type} (transport : Nat → DCFetch ρ μ)
    (aura : Option AuraInfo) (accMeta : Option μ) (accTotal : Option Int)
    (fuel : Nat) : DCRun ρ μ :=
  match aura with
  | none => .fail "Missing Aura context — cannot fetch additional rows" 0
  | some a =>
      if a.auraUrl = none ∨ a.sql = "" then
        .fail "Missing Aura context — cannot fetch additional rows" 0
      else
        dcLoop transport accMeta fuel 0 0 [] accMeta accTotal

/-- A server that holds exactly `total` rows (numbered `0, …, total-1`)
and answers a `LIMIT BATCH OFFSET k` request with the rows from `k`,
declaring `rowCount = total` — every page except possibly the last is
full. -/
def honestDC (total : Nat) (μ : Type) : Nat → DCFetch Nat μ :=
  fun offset => .page (((List.range total).drop offset).take BATCH) none (some (total : Int))

/-- Number of page fetches of a run that ended through `onDone`. -/
def runFetches {ρ μ : Type} : DCRun ρ μ → Option Nat
  | .done _ _ k => some k
  | _ => none

/-- Error taxonomy used to state that the surfaced failure message lets
the caller tell the abort causes apart. -/
inductive ErrCat where
  | transport
  | auth
  | server
  | parse
  | protocol
  | unknown
deriving DecidableEq, Repr

/-- Classify a surfaced failure message back to its category.  Auth
failures are the server-status messages whose status parses as 401 or
403. -/
def classifyMsg (m : String) : ErrCat :=
  if "Network error: ".toList.isPrefixOf m.toList then .transport
  else if m = "Failed to parse response as JSON" then .parse
  else if m = "Unexpected response structure" then .protocol
  else if "Server error ".toList.isPrefixOf m.toList then
    match decToNat? (m.toList.drop 13) with
    | some n => if n = 401 ∨ n = 403 then .auth else .server
    | none => .server
  else .unknown

/-- The possible outcomes of one continuation fetch made by
`fetchAllSoqlRows`, indexed by the full URL it requests.  A parsed body of
the wrong shape is still a `page`: `records` may be absent (`?? []`),
`done` is its truthiness, `next` the optional `nextRecordsUrl`. -/
inductive SoqlFetch (ρ : Type) where
  | netErr (msg : String)
  | httpErr (status : Nat)
  | parseErr
  | page (records : Option (List ρ)) (done : Bool) (next : Option String)
deriving DecidableEq, Repr

/-- Result of a `fetchAllSoqlRows` run. -/
inductive SoqlRun (ρ : Type) where
  | done (records : List ρ) (fetches : Nat)
  | fail (msg : String) (fetches : Nat)
  | fuelOut
deriving DecidableEq, Repr

/-- The `while (currentNextUrl)` loop of `fetchAllSoqlRows`.  A `some`
locator that is the empty string is falsy in JavaScript and also ends the
loop.  Relative locators are resolved against `origin`. -/
def soqlLoop {ρ : Type} (transport : String → SoqlFetch ρ) (origin : String) :
    Nat → List ρ → Option String → Nat → SoqlRun ρ
  | 0, _, _, _ => .fuelOut
  | fuel + 1, allRecords, currentNext, fetches =>
      match currentNext with
      | none => .done allRecords fetches
      | some u =>
          if u = "" then .done allRecords fetches
          else
            let fullUrl := if u.startsWith "http" then u else origin ++ u
            match transport fullUrl with
            | .netErr m => .fail ("Network error: " ++ m) (fetches + 1)
            | .httpErr s => .fail ("Server error " ++ natDec s) (fetches + 1)
            | .parseErr => .fail "Failed to parse response as JSON" (fetches + 1)
            | .page recs d next =>
                soqlLoop transport origin fuel (allRecords ++ recs.getD [])
                  (if d then none else next) (fetches + 1)

/-- `fetchAllSoqlRows`: start from a copy of the already-shown records and
chain through the continuation locators. -/
def fetchAllSoqlRows {ρ : Type} (transport : String → SoqlFetch ρ) (origin : String)
    (initialRecords : List ρ) (nextRecordsUrl : Option String) (fuel : Nat) :
    SoqlRun ρ :=
  soqlLoop transport origin fuel initialRecords nextRecordsUrl 0

/-- A JavaScript exception as the patched transport primitives see it:
either the specific `DOMException` named `NetworkError`, or anything
else. -/
inductive JsErr where
  | domNetworkError
  | other (code : Nat)
deriving DecidableEq, Repr

/-- The `e instanceof DOMException && e.name === NetworkError` test of the
synchronous-send handler. -/
def isNetErr : JsErr → Bool
  | .domNetworkError => true
  | .other _ => false

/-- Outcome of a JavaScript call: a value, or a thrown exception. -/
inductive JsResult (α : Type) where
  | val (v : α)
  | exn (e : JsErr)
deriving DecidableEq, Repr

/-- A `try { … } catch { }` around interceptor-side work: whatever it does
or throws is discarded. -/
def swallow (_r : JsResult Unit) : Unit := ()

/-- The patched `window.fetch`: await the original call (a rejection
propagates untouched), then hand a clone to the classifier inside
`try/catch` with a `.catch(() => {})` tail, and return the original
response object. -/
def patchedFetch {α : Type} (orig : JsResult α) (classify : α → JsResult Unit) :
    JsResult α :=
  match orig with
  | .exn e => .exn e
  | .val r =>
      let _ := swallow (classify r)
      .val r

/-- The patched asynchronous `XMLHttpRequest.send`: the load listener
(whose body is wrapped in `try/catch`) runs outside the caller's control
flow; the original send result is returned unchanged. -/
def patchedXhrSendAsync (orig : JsResult Unit) (listener : JsResult Unit) :
    JsResult Unit :=
  match orig with
  | .exn e => .exn e
  | .val _ =>
      let _ := swallow listener
      .val ()

/-- The patched synchronous `XMLHttpRequest.send`: forward to the original
send, but swallow a thrown `NetworkError` `DOMException` (returning
`undefined`) and rethrow anything else. -/
def patchedXhrSendSync (orig : JsResult Unit) : JsResult Unit :=
  match orig with
  | .val v => .val v
  | .exn e => if isNetErr e then .val () else .exn e

theorem ofirst_some {α : Type} (x : α) (b : Option α) : ofirst (some x) b = some x := rfl

theorem ofirst_none {α : Type} (b : Option α) : ofirst none b = b := rfl

theorem ofirst_assoc {α : Type} (a b c : Option α) :
    ofirst (ofirst a b) c = ofirst a (ofirst b c) := by
  cases a <;> simp [ofirst]

theorem firstSome_cons {μ : Type} (x : Option μ) (l : List (Option μ)) :
    firstSome (x :: l) = ofirst x (firstSome l) := by
  cases x <;> simp [firstSome, ofirst]

theorem mergeFold_dataRows {ρ μ : Type} (rest : List (DCPayload ρ μ)) (acc : Acc ρ μ) :
    (List.foldl (fun a pg => mergePage a pg none) acc rest).dataRows
      = acc.dataRows ++ (rest.map (fun pg => pg.dataRows)).flatten := by
  induction rest generalizing acc with
  | nil => simp
  | cons p ps ih =>
      simp only [List.foldl_cons, List.map_cons, List.flatten]
      rw [ih]
      simp [mergePage]

theorem mergeFold_metadata {ρ μ : Type} (rest : List (DCPayload ρ μ)) (acc : Acc ρ μ) :
    (List.foldl (fun a pg => mergePage a pg none) acc rest).metadata
      = ofirst acc.metadata (firstSome (rest.map (fun pg => pg.metadata))) := by
  induction rest generalizing acc with
  | nil => cases h : acc.metadata <;> simp [firstSome, ofirst, h]
  | cons p ps ih =>
      simp only [List.foldl_cons, List.map_cons]
      rw [ih, firstSome_cons, ← ofirst_assoc]
      rfl

/-- C1: merging a nonempty in-order page sequence for one queryId through
the accumulator logic of `processResponse` yields rows equal to the
concatenation of the pages' `dataRows` arrays (hence a length equal to
the sum of the per-page lengths), and column metadata equal to the first
present metadata value among the pages. -/
theorem C1_accumulate_concat_and_first_metadata {ρ μ : Type} (q : String)
    (p : DCPayload ρ μ) (rest : List (DCPayload ρ μ)) :
    (accumulatePages q p rest).dataRows
        = ((p :: rest).map (fun pg => pg.dataRows)).flatten
      ∧ (accumulatePages q p rest).dataRows.length
        = ((p :: rest).map (fun pg => pg.dataRows.length)).sum
      ∧ (accumulatePages q p rest).metadata
        = firstSome ((p :: rest).map (fun pg => pg.metadata)) := by
  have hrows : (accumulatePages q p rest).dataRows
      = ((p :: rest).map (fun pg => pg.dataRows)).flatten := by
    unfold accumulatePages
    rw [mergeFold_dataRows]
    simp [mergePage, initAcc]
  refine ⟨hrows, ?_, ?_⟩
  · rw [hrows]
    simp only [List.length_flatten, List.map_map, List.map_cons]
    rfl
  · unfold accumulatePages
    rw [mergeFold_metadata, List.map_cons, firstSome_cons]
    have hm : (mergePage (initAcc q p none) p none).metadata = p.metadata := by
      cases h : p.metadata <;> simp [mergePage, initAcc, ofirst, h]
    rw [hm]

theorem mergeFold_returnedRows {ρ μ : Type} (rest : List (DCPayload ρ μ)) (acc : Acc ρ μ) :
    (List.foldl (fun a pg => mergePage a pg none) acc rest).returnedRows
      = acc.returnedRows + (rest.map thisPageRows).sum := by
  induction rest generalizing acc with
  | nil => simp
  | cons p ps ih =>
      simp only [List.foldl_cons, List.map_cons, List.sum_cons]
      rw [ih]
      simp [mergePage]
      ring

/-- C3 counterexample: a page whose declared `returnedRows` (5) differs
from its actual `dataRows` length (3) leaves a live accumulator in the
store whose rows length (3) differs from its `returnedRows` counter (5),
refuting the invariant as claimed. -/
theorem C3_cex :
    (((processResponse (emptyStore Nat Nat)
        (some ⟨[1, 2, 3], none, some 5, some "Q", none⟩) "" none).1 "Q").map
        (fun a => (a.dataRows.length, a.returnedRows)) = some (3, 5))
      ∧ ((3 : Int) ≠ (5 : Int)) := by
  exact ⟨by decide, by decide⟩

/-- C3 (amended): the rows length of an accumulator equals its
`returnedRows` counter provided every merged page either declares no
`returnedRows` count or declares one equal to its actual `dataRows`
length; in general the counter adds declared counts while the rows list
grows by actual page lengths. -/
theorem C3_amended_rows_length_eq_counter {ρ μ : Type} (q : String)
    (p : DCPayload ρ μ) (rest : List (DCPayload ρ μ))
    (h : ∀ pg ∈ p :: rest,
        pg.returnedRows = none ∨ pg.returnedRows = some (pg.dataRows.length : Int)) :
    ((accumulatePages q p rest).dataRows.length : Int)
      = (accumulatePages q p rest).returnedRows := by
  have hpage : ∀ pg ∈ p :: rest, thisPageRows pg = (pg.dataRows.length : Int) := by
    intro pg hm
    rcases h pg hm with h1 | h1 <;> simp [thisPageRows, h1]
  have hlen : (accumulatePages q p rest).dataRows.length
      = p.dataRows.length + (rest.map (fun pg => pg.dataRows.length)).sum := by
    unfold accumulatePages
    rw [mergeFold_dataRows]
    simp only [List.length_append, List.length_flatten, List.map_map]
    simp [mergePage, initAcc, Function.comp]
    rfl
  have hret : (accumulatePages q p rest).returnedRows
      = thisPageRows p + (rest.map thisPageRows).sum := by
    unfold accumulatePages
    rw [mergeFold_returnedRows]
    simp [mergePage, initAcc]
  rw [hlen, hret, hpage p (List.mem_cons_self p rest)]
  have hmap : rest.map thisPageRows = rest.map (fun pg => (pg.dataRows.length : Int)) := by
    apply List.map_congr_left
    intro pg hm
    exact hpage pg (List.mem_cons_of_mem p hm)
  rw [hmap]
  push_cast
  rw [List.map_map]
  rfl

/-- C3 amended witness: two consistent pages (declared count 2 with 2
rows, then an undeclared page of 1 row) keep rows length equal to the
counter. -/
theorem C3_amended_witness :
    ((accumulatePages "Q" (⟨[1, 2], none, some 2, some "Q", none⟩ : DCPayload Nat Nat)
        [⟨[5], none, none, some "Q", none⟩]).dataRows.length : Int)
      = (accumulatePages "Q" (⟨[1, 2], none, some 2, some "Q", none⟩ : DCPayload Nat Nat)
        [⟨[5], none, none, some "Q", none⟩]).returnedRows :=
  C3_amended_rows_length_eq_counter "Q" _ _ (by decide)

/-- C4 counterexample: a first page declaring total 2500 followed by a
page declaring total 100 makes `totalRows` decrease from 2500 to 100 —
the declared total is adopted unconditionally, not only when larger. -/
theorem C4_cex :
    (accumulatePages "Q" (⟨[], none, none, some "Q", some 2500⟩ : DCPayload Nat Nat)
        []).totalRows = some 2500
      ∧ (accumulatePages "Q" (⟨[], none, none, some "Q", some 2500⟩ : DCPayload Nat Nat)
        [⟨[], none, none, some "Q", some 100⟩]).totalRows = some 100
      ∧ (100 : Int) < 2500 := by
  exact ⟨by decide, by decide, by decide⟩

theorem getLast_ofirst_cons (t : Int) (fm : List Int) (b : Option Int) :
    ofirst ((t :: fm).getLast?) b = ofirst (fm.getLast?) (some t) := by
  cases fm with
  | nil => rfl
  | cons h hs =>
      rw [List.getLast?_cons_cons]
      have hne : (h :: hs) ≠ [] := by simp
      rcases List.getLast?_eq_getLast (h :: hs) hne ▸ Option.isSome_some with _
      rw [List.getLast?_eq_getLast (h :: hs) hne]
      rfl

/-- C4 (amended): `processResponse` adopts any present declared total
unconditionally, so after a sequence of merges `totalRows` equals the
last declared total among the pages (or the prior value when none
declares one); it is not monotone and can decrease when a later page
declares a smaller total. -/
theorem C4_amended_last_declared_total_wins {ρ μ : Type}
    (pages : List (DCPayload ρ μ)) (acc : Acc ρ μ) :
    (List.foldl (fun a pg => mergePage a pg none) acc pages).totalRows
      = ofirst ((pages.filterMap (fun pg => pg.statusRowCount)).getLast?) acc.totalRows := by
  induction pages generalizing acc with
  | nil => rfl
  | cons pg ps ih =>
      simp only [List.foldl_cons, List.filterMap_cons]
      cases hs : pg.statusRowCount with
      | none =>
          rw [ih]
          simp [mergePage, hs, ofirst]
      | some t =>
          rw [ih, getLast_ofirst_cons]
          simp [mergePage, hs, ofirst]

/-- C8 counterexample: (i) an enveloped response with no queryId and no
metadata is skipped entirely — no completion is emitted; (ii) with
metadata present but a declared `returnedRows` (7) different from the
actual rows length (3), the emitted completion has
`returnedRowCount = 7 ≠ 3 = rows.length`.  Both refute the claim as
stated. -/
theorem C8_cex :
    ((processResponse (emptyStore Nat Nat)
        (some ⟨[1, 2], none, none, none, none⟩) "" none).2 = [])
      ∧ ((processResponse (emptyStore Nat Nat)
          (some ⟨[1, 2, 3], some 0, some 7, none, none⟩) "" none).2.map
          (fun t => (t.dataRows.length, t.returnedRows, t.totalRows))
            = [(3, 7, some 7)])
      ∧ ((7 : Int) ≠ (3 : Int)) := by
  exact ⟨by decide, by decide, by decide⟩

/-- C8 (amended): an enveloped response carrying no queryId (none in the
body and none recoverable from the URL) skips accumulation; when it also
carries metadata, an immediate self-contained completion is emitted whose
`returnedRowCount` and `totalRowCount` both equal the page's declared
count (falling back to the rows length when no count is declared) and
which is never flagged limited; without metadata the response is skipped
with no emission. -/
theorem C8_amended_no_queryId_immediate {ρ μ : Type} (s : Store ρ μ) (url : String)
    (aura : Option AuraInfo) (payload : DCPayload ρ μ)
    (h1 : payload.statusQueryId = none) (h2 : extractQueryIdFromUrl url = none) :
    (payload.metadata = none → processResponse s (some payload) url aura = (s, []))
      ∧ (payload.metadata.isSome →
          (processResponse s (some payload) url aura).1 = s
            ∧ (processResponse s (some payload) url aura).2.map
                (fun t => (t.dataRows, t.returnedRows, t.totalRows, t.isLimited))
              = [(payload.dataRows, thisPageRows payload,
                  some (thisPageRows payload), false)]) := by
  constructor
  · intro hm
    simp [processResponse, h1, h2, hm, ofirst]
  · intro hm
    rcases Option.isSome_iff_exists.mp hm with ⟨m, hmeq⟩
    simp [processResponse, h1, h2, hmeq, ofirst, toastOf]

/-- C8 amended witness: a single no-queryId exchange with metadata and one
row flushes immediately with `returnedRowCount = totalRowCount = 1`. -/
theorem C8_amended_witness :
    (processResponse (emptyStore Nat Nat) (some ⟨[4], some 9, none, none, none⟩)
        "" none).1 = emptyStore Nat Nat
      ∧ (processResponse (emptyStore Nat Nat) (some ⟨[4], some 9, none, none, none⟩)
          "" none).2.map (fun t => (t.dataRows, t.returnedRows, t.totalRows, t.isLimited))
        = [([4], 1, some 1, false)] :=
  (C8_amended_no_queryId_immediate (emptyStore Nat Nat) "" none
      ⟨[4], some 9, none, none, none⟩ rfl (by decide)).2 rfl

/-- C2 counterexample: merging one page (1 row, queryId present, no
declared total) arms the flush timer; when the timer fires, the emitted
completion is NOT flagged limited (`totalRows` is the `Infinity` marker,
and `showToast` computes `isLimited` as
`returnedRows < totalRows && totalRows !== Infinity`), contradicting the
claim that the inactivity flush emits a `limited` completion. -/
theorem C2_cex :
    ((timerFire (processResponse (emptyStore Nat Nat)
        (some ⟨[7], some 0, some 1, some "Q2", none⟩) "" none).1 "Q2").2.map
        (fun t => (t.isLimited, t.returnedRows))) = [(false, 1)] := by
  decide

/-- C2 (amended): for every merge with a queryId — (a) if the merged
accumulator reaches its known total, the completion is emitted by that
very call, the accumulator leaves the store, and a subsequent timer fire
emits nothing; (b) otherwise (with rows merged) nothing is emitted now, and
the armed inactivity timer, fired with no intervening page, flushes a
completion carrying exactly the rows merged so far with `returnedRows` as
the final count, flagged limited precisely when a finite declared total
exceeds that count; (c) concretely, page 1 (1000 rows, 5 columns,
totalCount 2500) followed by page 2 (1500 rows, no columns, no status,
queryId recovered from the URL) completes immediately with
`returnedRowCount = 2500` and page 1's metadata. -/
theorem C2_amended_completion_and_timeout {ρ μ : Type} (s : Store ρ μ)
    (payload : DCPayload ρ μ) (url : String) (aura : Option AuraInfo) (q : String)
    (hq : ofirst payload.statusQueryId (extractQueryIdFromUrl url) = some q) :
    (completeB (stepAccOf s q payload aura) = true →
        processResponse s (some payload) url aura
            = (delStore s q, [toastOf (stepAccOf s q payload aura)])
          ∧ timerFire (processResponse s (some payload) url aura).1 q
            = ((processResponse s (some payload) url aura).1, []))
      ∧ (completeB (stepAccOf s q payload aura) = false →
          0 < (stepAccOf s q payload aura).returnedRows →
          (processResponse s (some payload) url aura).2 = []
            ∧ timerFire (processResponse s (some payload) url aura).1 q
              = (delStore (processResponse s (some payload) url aura).1 q,
                 [toastOf { stepAccOf s q payload aura with pending := true }])
            ∧ (toastOf { stepAccOf s q payload aura with pending := true }).dataRows
              = (stepAccOf s q payload aura).dataRows
            ∧ (toastOf { stepAccOf s q payload aura with pending := true }).returnedRows
              = (stepAccOf s q payload aura).returnedRows
            ∧ (toastOf { stepAccOf s q payload aura with pending := true }).isLimited
              = (match (stepAccOf s q payload aura).totalRows with
                 | some t => decide ((stepAccOf s q payload aura).returnedRows < t)
                 | none => false))
      ∧ ((processResponse
            (processResponse (emptyStore Nat (List Nat))
              (some ⟨List.range 1000, some (List.range 5), some 1000, some "Q1", some 2500⟩)
              "/aura" none).1
            (some ⟨List.range 1500, none, some 1500, none, none⟩)
            "/x?queryId=Q1" none).2.map (fun t => (t.returnedRows, t.metadata, t.totalRows))
          = [(2500, some (List.range 5), some 2500)]
        ∧ (processResponse
            (processResponse (emptyStore Nat (List Nat))
              (some ⟨List.range 1000, some (List.range 5), some 1000, some "Q1", some 2500⟩)
              "/aura" none).1
            (some ⟨List.range 1500, none, some 1500, none, none⟩)
            "/x?queryId=Q1" none).1 "Q1" = none) := by
  refine ⟨?_, ?_, ?_⟩
  · intro hc
    have hp : processResponse s (some payload) url aura
        = (delStore s q, [toastOf (stepAccOf s q payload aura)]) := by
      simp [processResponse, hq, hc]
    refine ⟨hp, ?_⟩
    rw [hp]
    simp [timerFire, delStore]
  · intro hc hr
    have hp : processResponse s (some payload) url aura
        = (setStore s q { stepAccOf s q payload aura with pending := true }, []) := by
      simp [processResponse, hq, hc, hr]
    refine ⟨by rw [hp], ?_, rfl, rfl, ?_⟩
    · rw [hp]
      simp [timerFire, setStore, delStore]
    · cases h : (stepAccOf s q payload aura).totalRows <;> simp [toastOf, h]
  · exact ⟨by decide, by decide⟩

/-- C2 amended witness: a single page declaring 1 returned row and total 1
completes immediately, and a timer fire afterwards emits nothing. -/
theorem C2_amended_witness :
    processResponse (emptyStore Nat Nat) (some ⟨[3], none, some 1, some "QW", some 1⟩)
        "" none
      = (delStore (emptyStore Nat Nat) "QW",
         [toastOf (stepAccOf (emptyStore Nat Nat) "QW"
            ⟨[3], none, some 1, some "QW", some 1⟩ none)])
      ∧ timerFire (processResponse (emptyStore Nat Nat)
          (some ⟨[3], none, some 1, some "QW", some 1⟩) "" none).1 "QW"
        = ((processResponse (emptyStore Nat Nat)
            (some ⟨[3], none, some 1, some "QW", some 1⟩) "" none).1, []) :=
  (C2_amended_completion_and_timeout (emptyStore Nat Nat)
      ⟨[3], none, some 1, some "QW", some 1⟩ "" none "QW" rfl).1 (by decide)

/-- C7: a qualifying tabular data response on the tooling endpoint (non-empty
records, not a `columns=true` preflight, not a continuation locator)
produces a result if and only if the arm/consume gate is armed; the first
qualifying response consumes the gate (resets it to idle), so one arming
yields at most one emitted result, an unarmed background tooling response
is ignored, and a `columns=true` preflight to the tooling endpoint is
what arms the gate. -/
theorem C7_arm_consume_gate {ρ : Type} (d : SoqlData ρ) (url : String)
    (hrec : d.records.length ≠ 0) (hcol : columnsTrueTest url = false)
    (hcont : contLocatorTest url = false) (htool : toolingQueryTest url = true) :
    processSoqlResponse true (some d) url = (false, some d)
      ∧ processSoqlResponse false (some d) url = (false, none)
      ∧ (∀ (a : Bool) (u2 : String), toolingQueryTest u2 = true →
          columnsTrueTest u2 = true → armOnSend a u2 = true)
      ∧ (processSoqlResponse (processSoqlResponse true (some d) url).1
          (some d) url).2 = none := by
  have h1 : processSoqlResponse true (some d) url = (false, some d) := by
    simp [processSoqlResponse, hrec, hcol, hcont, htool]
  have h2 : processSoqlResponse false (some d) url = (false, none) := by
    simp [processSoqlResponse, hrec, hcol, hcont, htool]
  refine ⟨h1, h2, ?_, ?_⟩
  · intro a u2 ht hc
    simp [armOnSend, ht, hc]
  · rw [h1]
    rw [h2]

/-- C7 witness: a user-initiated tooling query response right after its
preflight is shown exactly once; repeated, it is ignored. -/
theorem C7_witness :
    processSoqlResponse true (some (⟨[1], 1, true, none⟩ : SoqlData Nat))
        "/services/data/v60.0/tooling/query?q=SELECT+Id+FROM+ApexClass"
      = (false, some ⟨[1], 1, true, none⟩)
      ∧ processSoqlResponse false (some (⟨[1], 1, true, none⟩ : SoqlData Nat))
          "/services/data/v60.0/tooling/query?q=SELECT+Id+FROM+ApexClass"
        = (false, none) :=
  ⟨(C7_arm_consume_gate ⟨[1], 1, true, none⟩ _
      (by decide) (by decide) (by decide) (by decide)).1,
   (C7_arm_consume_gate ⟨[1], 1, true, none⟩ _
      (by decide) (by decide) (by decide) (by decide)).2.1⟩

/-- C10: a tabular response whose records array is empty is ignored
entirely by `processSoqlResponse` — no result is emitted and the arm
state is untouched — regardless of the URL, the declared `totalSize`, the
`done` flag or a continuation locator. -/
theorem C10_empty_records_ignored {ρ : Type} (armed : Bool) (d : SoqlData ρ)
    (url : String) (h : d.records = []) :
    processSoqlResponse armed (some d) url = (armed, none) := by
  simp [processSoqlResponse, h]

/-- C10 witness: an empty-records response with a large `totalSize`, a
false `done` flag and a continuation locator is still ignored. -/
theorem C10_witness :
    processSoqlResponse true
        (some (⟨[], 100, false, some "/services/data/v60.0/query/01gA-2000"⟩ : SoqlData Nat))
        "/services/data/v60.0/query?q=SELECT+Id"
      = (true, none) :=
  C10_empty_records_ignored true _ _ rfl

/-- C9 counterexample: a synchronous `XMLHttpRequest.send` whose
underlying send throws a `NetworkError` `DOMException` returns normally
through the patch instead of propagating the exception — the caller does
not observe the same result as with the unpatched primitive. -/
theorem C9_cex :
    patchedXhrSendSync (JsResult.exn JsErr.domNetworkError) = JsResult.val ()
      ∧ JsResult.val () ≠ JsResult.exn JsErr.domNetworkError := by
  exact ⟨rfl, by decide⟩

/-- C9 (amended): the patched `fetch` and asynchronous
`XMLHttpRequest.send` return exactly the original primitive's outcome —
value and failure alike — regardless of what the interceptor-side
classification does; the synchronous send also does, except that a thrown
`NetworkError` `DOMException` is swallowed by design and the call returns
normally. -/
theorem C9_amended_transparent_passthrough :
    (∀ (α : Type) (orig : JsResult α) (classify : α → JsResult Unit),
        patchedFetch orig classify = orig)
      ∧ (∀ (orig listener : JsResult Unit), patchedXhrSendAsync orig listener = orig)
      ∧ (∀ (v : Unit), patchedXhrSendSync (JsResult.val v) = JsResult.val v)
      ∧ (∀ (e : JsErr), isNetErr e = false →
          patchedXhrSendSync (JsResult.exn e) = JsResult.exn e)
      ∧ patchedXhrSendSync (JsResult.exn JsErr.domNetworkError) = JsResult.val () := by
  refine ⟨?_, ?_, ?_, ?_, rfl⟩
  · intro α orig classify
    cases orig <;> rfl
  · intro orig listener
    cases orig with
    | val v => cases v; rfl
    | exn e => rfl
  · intro v
    cases v; rfl
  · intro e he
    simp [patchedXhrSendSync, he]

/-- C9 amended witness: a non-NetworkError exception from a synchronous
send propagates unchanged through the patch. -/
theorem C9_amended_witness :
    patchedXhrSendSync (JsResult.exn (JsErr.other 0)) = JsResult.exn (JsErr.other 0) :=
  C9_amended_transparent_passthrough.2.2.2.1 (JsErr.other 0) rfl

theorem honest_page_length (N offset : Nat) :
    (((List.range N).drop offset).take BATCH).length = min BATCH (N - offset) := by
  simp [List.length_take, List.length_drop]

theorem ceil_div_pos {r : Nat} (hr : 1 ≤ r) : 1 ≤ (r + BATCH - 1) / BATCH := by
  have hB : 0 < BATCH := by decide
  rw [Nat.one_le_div_iff hB]
  omega

theorem ceil_div_one {r : Nat} (h1 : 1 ≤ r) (h2 : r ≤ BATCH) :
    (r + BATCH - 1) / BATCH = 1 := by
  have hB : 0 < BATCH := by decide
  have he : r + BATCH - 1 = r - 1 + BATCH := by omega
  rw [he, Nat.add_div_right _ hB, Nat.div_eq_of_lt (by omega)]

theorem ceil_div_step {r : Nat} (h : BATCH < r) :
    (r + BATCH - 1) / BATCH = (r - BATCH + BATCH - 1) / BATCH + 1 := by
  have hB : 0 < BATCH := by decide
  have he1 : r + BATCH - 1 = r - 1 + BATCH := by omega
  have he2 : r - BATCH + BATCH - 1 = r - 1 := by omega
  rw [he1, he2, Nat.add_div_right _ hB]

theorem dcLoop_honest_count (μ : Type) (N : Nat) :
    ∀ (fuel pageNum offset : Nat) (rows : List Nat) (am m : Option μ) (t : Option Int),
    offset < N → (N - offset + BATCH - 1) / BATCH ≤ fuel → rows.length = offset →
    runFetches (dcLoop (honestDC N μ) am fuel pageNum offset rows m t)
      = some (pageNum + (N - offset + BATCH - 1) / BATCH) := by
  intro fuel
  induction fuel with
  | zero =>
      intro pageNum offset rows am m t hlt hfuel _
      exact absurd hfuel (by have := ceil_div_pos (r := N - offset) (by omega); omega)
  | succ fuel ih =>
      intro pageNum offset rows am m t hlt hfuel hlen
      have hB : 0 < BATCH := by decide
      have hpl := honest_page_length N offset
      by_cases hcase : N - offset ≤ BATCH
      · -- final page: the declared total is reached
        have hplv : (((List.range N).drop offset).take BATCH).length = N - offset := by
          rw [hpl]; omega
        have hcond : (decide ((((List.range N).drop offset).take BATCH).length < BATCH) ||
            (match ofirst (some (N : Int)) t with
             | some tt => decide (((rows ++ ((List.range N).drop offset).take BATCH).length : Int) ≥ tt)
             | none => false) ||
            decide ((((List.range N).drop offset).take BATCH).length = 0)) = true := by
          simp only [ofirst, List.length_append, hplv, hlen, Bool.or_eq_true,
            decide_eq_true_eq]
          push_cast
          omega
        simp only [dcLoop, honestDC, hcond, if_true, runFetches]
        rw [ceil_div_one (by omega) hcase]
      · -- full page: recurse
        push_neg at hcase
        have hplv : (((List.range N).drop offset).take BATCH).length = BATCH := by
          rw [hpl]; omega
        have hcond : (decide ((((List.range N).drop offset).take BATCH).length < BATCH) ||
            (match ofirst (some (N : Int)) t with
             | some tt => decide (((rows ++ ((List.range N).drop offset).take BATCH).length : Int) ≥ tt)
             | none => false) ||
            decide ((((List.range N).drop offset).take BATCH).length = 0)) = false := by
          simp only [ofirst, List.length_append, hplv, hlen, Bool.or_eq_false_iff,
            decide_eq_false_iff_not]
          push_cast
          omega
        simp only [dcLoop, honestDC, hcond, Bool.false_eq_true, if_false]
        have hrec := ih (pageNum + 1) (offset + BATCH)
          (rows ++ ((List.range N).drop offset).take BATCH)
          am (ofirst m none) (ofirst (some (N : Int)) t)
          (by omega)
          (by have hstep := ceil_div_step (r := N - offset) (by omega)
              have he : N - (offset + BATCH) = N - offset - BATCH := by omega
              rw [he]
              omega)
          (by simp [hplv, hlen])
        rw [hplv]
        rw [hrec]
        have hstep := ceil_div_step (r := N - offset) (by omega)
        have he : N - (offset + BATCH) = N - offset - BATCH := by omega
        rw [he, hstep]
        exact congrArg some (by omega)

/-- C5 counterexample: with `totalCount = 0` the server's only page is
empty, yet the loop still performs one page fetch (it must issue a
request to learn there are no rows), while
`ceil(totalCount / batchSize) = 0`. -/
theorem C5_cex :
    runFetches (dcLoop (honestDC 0 Nat) none 1 0 0 [] none none) = some 1
      ∧ (0 + BATCH - 1) / BATCH = 0
      ∧ (1 : Nat) ≠ 0 := by
  exact ⟨by decide, by decide, by decide⟩

/-- C5 (amended): against a server holding exactly `N` rows that answers
every `LIMIT BATCH OFFSET k` request with the rows from `k` (so every
page but the last is full), the `fetchAllRows` page loop terminates
through `onDone` after exactly `max 1 (ceil(N / BATCH))` page fetches —
`ceil(N / BATCH)` fetches whenever `N ≥ 1`, and a single fetch of the
empty page when `N = 0`. -/
theorem C5_amended_page_fetch_count (μ : Type) (N : Nat) (am m : Option μ)
    (t : Option Int) (fuel : Nat)
    (hf : max 1 ((N + BATCH - 1) / BATCH) ≤ fuel) :
    runFetches (dcLoop (honestDC N μ) am fuel 0 0 [] m t)
      = some (max 1 ((N + BATCH - 1) / BATCH)) := by
  by_cases hN : N = 0
  · subst hN
    have h0 : (0 + BATCH - 1) / BATCH = 0 := by decide
    rw [h0]
    rw [h0] at hf
    simp only [Nat.max_eq_left (by omega : 0 ≤ 1)] at hf ⊢
    obtain ⟨f, rfl⟩ : ∃ f, fuel = f + 1 := ⟨fuel - 1, by omega⟩
    simp [dcLoop, honestDC, runFetches, BATCH]
  · have h1 : 1 ≤ (N + BATCH - 1) / BATCH := by
      have := ceil_div_pos (r := N) (by omega)
      omega
    rw [Nat.max_eq_right h1] at hf ⊢
    have := dcLoop_honest_count μ N fuel 0 0 [] am m t (by omega)
      (by simpa using hf) rfl
    simpa using this

/-- C5 amended witness: `totalCount = 125000` with `batchSize = 49999`
yields exactly 3 page fetches. -/
theorem C5_amended_witness :
    runFetches (dcLoop (honestDC 125000 Nat) none 3 0 0 [] none none)
        = some (max 1 ((125000 + BATCH - 1) / BATCH))
      ∧ max 1 ((125000 + BATCH - 1) / BATCH) = 3 :=
  ⟨C5_amended_page_fetch_count Nat 125000 none none none 3 (by decide), by decide⟩

theorem string_append_data (s t : String) : (s ++ t).toList = s.toList ++ t.toList := rfl

theorem isPrefixOf_self_append (l t : List Char) : l.isPrefixOf (l ++ t) = true := by
  induction l with
  | nil => simp [List.isPrefixOf]
  | cons a as ih => simp [List.isPrefixOf, ih]

theorem isPrefixOf_false_of_head_ne {p l : List Char} {c d : Char}
    (hp : p.head? = some c) (hl : l.head? = some d) (hne : c ≠ d) :
    p.isPrefixOf l = false := by
  cases p with
  | nil => simp at hp
  | cons a as =>
      cases l with
      | nil => simp at hl
      | cons b bs =>
          simp only [List.head?_cons, Option.some.injEq] at hp hl
          subst hp
          subst hl
          simp [List.isPrefixOf, hne]

theorem decDigitVal_digitChar : ∀ d, d < 10 → decDigitVal (Nat.digitChar d) = d := by
  decide

theorem isDigit_digitChar : ∀ d, d < 10 → (Nat.digitChar d).isDigit = true := by
  decide

theorem foldl_dec_reverse (l : List Nat) :
    l.reverse.foldl (fun a d => 10 * a + d) 0 = Nat.ofDigits 10 l := by
  induction l with
  | nil => simp [Nat.ofDigits]
  | cons d t ih =>
      simp only [List.reverse_cons, List.foldl_append, ih, Nat.ofDigits_cons, List.foldl_cons,
        List.foldl_nil]
      omega

theorem decToNat_decChars (n : Nat) : decToNat? (decChars n) = some n := by
  rcases Nat.eq_zero_or_pos n with h | h
  · subst h
    decide
  · have hne0 : n ≠ 0 := by omega
    unfold decChars
    rw [if_neg hne0]
    have hmem : ∀ d ∈ (Nat.digits 10 n).reverse, d < 10 := by
      intro d hd
      exact Nat.digits_lt_base (by norm_num) (List.mem_reverse.mp hd)
    have hnil : (Nat.digits 10 n).reverse ≠ [] := by
      rw [ne_eq, List.reverse_eq_nil_iff]
      exact Nat.digits_ne_nil_iff_ne_zero.mpr hne0
    have hall : ((Nat.digits 10 n).reverse.map Nat.digitChar).all (·.isDigit) = true := by
      rw [List.all_eq_true]
      intro c hc
      rcases List.mem_map.mp hc with ⟨d, hd, rfl⟩
      exact isDigit_digitChar d (hmem d hd)
    have hmapnil : (Nat.digits 10 n).reverse.map Nat.digitChar ≠ [] := by
      simp [Nat.digits_ne_nil_iff_ne_zero.mpr hne0]
    unfold decToNat?
    rw [if_pos ⟨hmapnil, hall⟩]
    congr 1
    rw [List.foldl_map]
    have hfold : (Nat.digits 10 n).reverse.foldl
          (fun a d => 10 * a + decDigitVal (Nat.digitChar d)) 0
        = (Nat.digits 10 n).reverse.foldl (fun a d => 10 * a + d) 0 := by
      apply List.foldl_ext
      intro a d hd
      rw [decDigitVal_digitChar d (hmem d hd)]
    rw [hfold, foldl_dec_reverse, Nat.ofDigits_digits]

theorem classify_net_msg (m : String) :
    classifyMsg ("Network error: " ++ m) = ErrCat.transport := by
  have h : ("Network error: ".toList.isPrefixOf (("Network error: " ++ m).toList)) = true := by
    rw [string_append_data]
    exact isPrefixOf_self_append _ _
  simp [classifyMsg, h]

theorem classify_server_msg (s : Nat) :
    classifyMsg ("Server error " ++ natDec s)
      = if s = 401 ∨ s = 403 then ErrCat.auth else ErrCat.server := by
  have hdata : ("Server error " ++ natDec s).toList = "Server error ".toList ++ decChars s := rfl
  have hnet : ("Network error: ".toList.isPrefixOf
      (("Server error " ++ natDec s).toList)) = false := by
    rw [hdata]
    exact isPrefixOf_false_of_head_ne rfl rfl (by decide)
  have hne1 : ("Server error " ++ natDec s) ≠ "Failed to parse response as JSON" := by
    intro he
    have h2 : (("Server error " ++ natDec s).toList.head?)
        = (("Failed to parse response as JSON" : String).toList.head?) := by rw [he]
    rw [show ("Server error " ++ natDec s).toList.head? = some 'S' from rfl] at h2
    exact absurd h2 (by decide)
  have hne2 : ("Server error " ++ natDec s) ≠ "Unexpected response structure" := by
    intro he
    have h2 : (("Server error " ++ natDec s).toList.head?)
        = (("Unexpected response structure" : String).toList.head?) := by rw [he]
    rw [show ("Server error " ++ natDec s).toList.head? = some 'S' from rfl] at h2
    exact absurd h2 (by decide)
  have hsrv : ("Server error ".toList.isPrefixOf
      (("Server error " ++ natDec s).toList)) = true := by
    rw [hdata]
    exact isPrefixOf_self_append _ _
  have hdrop : (("Server error " ++ natDec s).toList).drop 13 = decChars s := by
    rw [hdata]
    rw [show (13 : Nat) = ("Server error ".toList).length from rfl, List.drop_left]
  unfold classifyMsg
  rw [hnet]
  simp only [Bool.false_eq_true, if_false]
  rw [if_neg hne1, if_neg hne2, hsrv]
  simp only [if_true]
  rw [hdrop, decToNat_decChars s]

theorem dcLoop_done_prefix {ρ μ : Type} (tr : Nat → DCFetch ρ μ) (am : Option μ) :
    ∀ (fuel pageNum offset : Nat) (rows : List ρ) (meta : Option μ) (total : Option Int)
      (out : List ρ) (m2 : Option μ) (k : Nat),
      dcLoop tr am fuel pageNum offset rows meta total = .done out m2 k → rows <+: out := by
  intro fuel
  induction fuel with
  | zero =>
      intro pageNum offset rows meta total out m2 k h
      simp [dcLoop] at h
  | succ fuel ih =>
      intro pageNum offset rows meta total out m2 k h
      rw [dcLoop] at h
      cases htr : tr offset with
      | netErr m => rw [htr] at h; simp at h
      | httpErr s => rw [htr] at h; simp at h
      | parseErr => rw [htr] at h; simp at h
      | auraErr m => rw [htr] at h; simp at h
      | badShape => rw [htr] at h; simp at h
      | page rows2 meta2 rowCount =>
          rw [htr] at h
          simp only at h
          split at h
          · injection h with h1 h2 h3
            subst h1
            exact List.prefix_append _ _
          · exact (List.prefix_append rows rows2).trans (ih _ _ _ _ _ _ _ _ h)

/-- C6 counterexample: in `fetchAllSoqlRows` a continuation response that
parses as JSON but has the wrong shape (no `records`, no `done`, no
`nextRecordsUrl`) does not abort with a typed failure — the run reports
success with only the 2 initially shown records although the declared
total was 5, i.e. a silently truncated result is returned as success. -/
theorem C6_cex :
    fetchAllSoqlRows (fun _ => (SoqlFetch.page none false none : SoqlFetch Nat))
        "https://org" [10, 20] (some "/services/data/v66.0/query/01gB-2000") 5
      = SoqlRun.done [10, 20] 1
      ∧ (2 : Int) < 5 := by
  exact ⟨by decide, by decide⟩

/-- C6 (amended): in `fetchAllRows`, a network error, a non-success HTTP
status, an unparseable body or a wrong-shaped body each abort the page
loop immediately with the corresponding failure message; those messages
classify back to distinct categories — `Server error 401/403` to an
authentication failure, other statuses to a server fault, the parse and
shape messages to parse/protocol errors, network messages to transport
errors — and a run that reports success never discards rows already
merged.  In `fetchAllSoqlRows`, network errors, non-success statuses and
unparseable bodies likewise abort with the same typed messages, but a
parseable body of the wrong shape does NOT abort: it ends the loop and
the records gathered so far are reported as success. -/
theorem C6_amended_typed_failures :
    (∀ (ρ μ : Type) (tr : Nat → DCFetch ρ μ) (am meta : Option μ) (total : Option Int)
        (fuel pageNum offset : Nat) (rows : List ρ) (m : String),
        tr offset = .netErr m →
        dcLoop tr am (fuel + 1) pageNum offset rows meta total
          = .fail ("Network error: " ++ m) (pageNum + 1))
      ∧ (∀ (ρ μ : Type) (tr : Nat → DCFetch ρ μ) (am meta : Option μ) (total : Option Int)
          (fuel pageNum offset : Nat) (rows : List ρ) (s : Nat),
          tr offset = .httpErr s →
          dcLoop tr am (fuel + 1) pageNum offset rows meta total
            = .fail ("Server error " ++ natDec s) (pageNum + 1))
      ∧ (∀ (ρ μ : Type) (tr : Nat → DCFetch ρ μ) (am meta : Option μ) (total : Option Int)
          (fuel pageNum offset : Nat) (rows : List ρ),
          tr offset = .parseErr →
          dcLoop tr am (fuel + 1) pageNum offset rows meta total
            = .fail "Failed to parse response as JSON" (pageNum + 1))
      ∧ (∀ (ρ μ : Type) (tr : Nat → DCFetch ρ μ) (am meta : Option μ) (total : Option Int)
          (fuel pageNum offset : Nat) (rows : List ρ),
          tr offset = .badShape →
          dcLoop tr am (fuel + 1) pageNum offset rows meta total
            = .fail "Unexpected response structure" (pageNum + 1))
      ∧ (∀ m, classifyMsg ("Network error: " ++ m) = ErrCat.transport)
      ∧ (∀ s, classifyMsg ("Server error " ++ natDec s)
          = if s = 401 ∨ s = 403 then ErrCat.auth else ErrCat.server)
      ∧ classifyMsg "Failed to parse response as JSON" = ErrCat.parse
      ∧ classifyMsg "Unexpected response structure" = ErrCat.protocol
      ∧ (∀ (ρ : Type) (tr : String → SoqlFetch ρ) (origin : String)
          (fuel fetches : Nat) (rows : List ρ) (u m : String), u ≠ "" →
          tr (if u.startsWith "http" then u else origin ++ u) = .netErr m →
          soqlLoop tr origin (fuel + 1) rows (some u) fetches
            = .fail ("Network error: " ++ m) (fetches + 1))
      ∧ (∀ (ρ : Type) (tr : String → SoqlFetch ρ) (origin : String)
          (fuel fetches : Nat) (rows : List ρ) (u : String) (s : Nat), u ≠ "" →
          tr (if u.startsWith "http" then u else origin ++ u) = .httpErr s →
          soqlLoop tr origin (fuel + 1) rows (some u) fetches
            = .fail ("Server error " ++ natDec s) (fetches + 1))
      ∧ (∀ (ρ : Type) (tr : String → SoqlFetch ρ) (origin : String)
          (fuel fetches : Nat) (rows : List ρ) (u : String), u ≠ "" →
          tr (if u.startsWith "http" then u else origin ++ u) = .parseErr →
          soqlLoop tr origin (fuel + 1) rows (some u) fetches
            = .fail "Failed to parse response as JSON" (fetches + 1))
      ∧ (∀ (ρ : Type) (tr : String → SoqlFetch ρ) (origin : String)
          (fuel fetches : Nat) (rows : List ρ) (u : String), u ≠ "" →
          tr (if u.startsWith "http" then u else origin ++ u) = .page none false none →
          soqlLoop tr origin (fuel + 2) rows (some u) fetches
            = .done rows (fetches + 1))
      ∧ (∀ (ρ μ : Type) (tr : Nat → DCFetch ρ μ) (am : Option μ)
          (fuel pageNum offset : Nat) (rows : List ρ) (meta : Option μ)
          (total : Option Int) (out : List ρ) (m2 : Option μ) (k : Nat),
          dcLoop tr am fuel pageNum offset rows meta total = DCRun.done out m2 k →
          rows <+: out) := by
  refine ⟨?_, ?_, ?_, ?_, classify_net_msg, classify_server_msg, by decide, by decide,
    ?_, ?_, ?_, ?_, ?_⟩
  · intro ρ μ tr am meta total fuel pageNum offset rows m h
    simp [dcLoop, h]
  · intro ρ μ tr am meta total fuel pageNum offset rows s h
    simp [dcLoop, h]
  · intro ρ μ tr am meta total fuel pageNum offset rows h
    simp [dcLoop, h]
  · intro ρ μ tr am meta total fuel pageNum offset rows h
    simp [dcLoop, h]
  · intro ρ tr origin fuel fetches rows u m hu h
    simp [soqlLoop, hu, h]
  · intro ρ tr origin fuel fetches rows u s hu h
    simp [soqlLoop, hu, h]
  · intro ρ tr origin fuel fetches rows u hu h
    simp [soqlLoop, hu, h]
  · intro ρ tr origin fuel fetches rows u hu h
    simp [soqlLoop, hu, h]
  · intro ρ μ tr am fuel pageNum offset rows meta total out m2 k h
    exact dcLoop_done_prefix tr am fuel pageNum offset rows meta total out m2 k h

/-- C6 amended witness: concrete aborts of both loops with their typed
messages, the auth classification of a 401, and the SOQL wrong-shape
termination. -/
theorem C6_amended_witness :
    dcLoop (fun _ => (DCFetch.netErr "refused" : DCFetch Nat Nat)) none 1 0 0 [] none none
        = DCRun.fail ("Network error: " ++ "refused") 1
      ∧ dcLoop (fun _ => (DCFetch.httpErr 401 : DCFetch Nat Nat)) none 1 0 0 [] none none
        = DCRun.fail ("Server error " ++ natDec 401) 1
      ∧ classifyMsg ("Server error " ++ natDec 401) = ErrCat.auth
      ∧ classifyMsg ("Server error " ++ natDec 500) = ErrCat.server
      ∧ soqlLoop (fun _ => (SoqlFetch.parseErr : SoqlFetch Nat)) "https://org" 1 [9]
          (some "/n") 0 = SoqlRun.fail "Failed to parse response as JSON" 1
      ∧ soqlLoop (fun _ => (SoqlFetch.page none false none : SoqlFetch Nat)) "https://org" 2
          [9] (some "/n") 0 = SoqlRun.done [9] 1 := by
  refine ⟨?_, ?_, ?_, ?_, ?_, ?_⟩
  · exact C6_amended_typed_failures.1 Nat Nat _ none none none 0 0 0 [] "refused" rfl
  · exact C6_amended_typed_failures.2.1 Nat Nat _ none none none 0 0 0 [] 401 rfl
  · have h := C6_amended_typed_failures.2.2.2.2.2.1 401
    simpa using h
  · have h := C6_amended_typed_failures.2.2.2.2.2.1 500
    simpa using h
  · exact C6_amended_typed_failures.2.2.2.2.2.2.2.2.2.2.1 Nat _ "https://org" 0 0 [9] "/n"
      (by decide) rfl
  · exact C6_amended_typed_failures.2.2.2.2.2.2.2.2.2.2.2.1 Nat _ "https://org" 0 0 [9] "/n"
      (by decide) rfl

end SFQH
